import Mathlib

/-!
Shallow embedding of the scrapy middleware sources under verification:
`scrapy/downloadermiddlewares/redirect.py`,
`scrapy/downloadermiddlewares/retry.py`,
`scrapy/spidermiddlewares/httperror.py`,
`scrapy/downloadermiddlewares/cookies.py`.

Python dicts restricted to the meta keys the code touches become a
structure of `Option` fields (a `none` field is an absent key); raising
an exception becomes `Except.error`; in-place mutation of the incoming
request becomes an explicitly returned updated request.
-/

namespace Scrapy

/-- A reason recorded in `meta['redirect_reasons']`: either a HTTP status
(`RedirectMiddleware` passes `response.status`) or the string
`'meta refresh'` (`MetaRefreshMiddleware`). -/
inductive RedirectReason where
  | status (n : Int)
  | metaRefresh
deriving DecidableEq, Repr

/-- The `request.meta` / `response.meta` dictionary, restricted to the keys
the four middleware files read or write.  A field of value `none` models an
absent key. -/
structure Meta where
  redirect_ttl : Option Int := none
  redirect_times : Option Int := none
  redirect_urls : Option (List String) := none
  redirect_reasons : Option (List RedirectReason) := none
  dont_redirect : Option Bool := none
  handle_httpstatus_all : Option Bool := none
  handle_httpstatus_list : Option (List Int) := none
  dont_retry : Option Bool := none
  retry_times : Option Int := none
  max_retry_times : Option Int := none
  cookiejar : Option String := none
  dont_merge_cookies : Option Bool := none
deriving DecidableEq, Repr

/-- One cookie of `request.cookies`, as consumed by
`CookiesMiddleware._format_cookie` (a dict with `name`, `value` and the
optional `path` and `domain` entries). -/
structure ReqCookie where
  name : String
  value : String
  path : Option String := none
  domain : Option String := none
deriving DecidableEq, Repr

/-- The header fields the middleware code touches.  `location` and
`setCookie` only occur on responses, `contentType`, `contentLength` and
`cookie` on requests; one structure serves both objects. -/
structure Headers where
  contentType : Option String := none
  contentLength : Option String := none
  cookie : Option (List String) := none
  location : Option String := none
  setCookie : List String := []
deriving DecidableEq, Repr

/-- A `scrapy.http.Request`, restricted to the attributes the middleware
code uses. -/
structure Request where
  url : String
  method : String := "GET"
  body : String := ""
  headers : Headers := {}
  meta : Meta := {}
  dont_filter : Bool := false
  priority : Int := 0
  cookies : List ReqCookie := []
deriving DecidableEq, Repr

/-- A `scrapy.http.Response`, restricted to the attributes the middleware
code uses.  `response.meta` proxies the originating request's meta, so it
is carried as a field here. -/
structure Response where
  status : Int
  headers : Headers := {}
  meta : Meta := {}
deriving DecidableEq, Repr

/-- `scrapy.exceptions.IgnoreRequest`, carrying its message. -/
structure IgnoreRequest where
  msg : String
deriving DecidableEq, Repr

/-- A spider object, restricted to the single attribute the middleware
code reads via `getattr(spider, 'handle_httpstatus_list', ...)`; `none`
models the attribute being unset. -/
structure Spider where
  handle_httpstatus_list : Option (List Int) := none
deriving DecidableEq, Repr

/-! ## redirect.py -/

/-- `BaseRedirectMiddleware` after `__init__`: the two settings it keeps,
`REDIRECT_MAX_TIMES` (default 20) and `REDIRECT_PRIORITY_ADJUST`
(default +2). -/
structure BaseRedirectMiddleware where
  max_redirect_times : Int := 20
  priority_adjust : Int := 2
deriving DecidableEq, Repr

/-- Python `request.meta.setdefault('redirect_ttl', d)`: returns the
possibly-updated meta together with the value read. -/
def Meta.setdefaultRedirectTtl (m : Meta) (d : Int) : Meta × Int :=
  match m.redirect_ttl with
  | some v => (m, v)
  | none => ({ m with redirect_ttl := some d }, d)

namespace BaseRedirectMiddleware

/-- `BaseRedirectMiddleware._redirect(redirected, request, spider, reason)`.
The first component of the result is the original `request` after the call
(the `setdefault` on its meta is an in-place mutation); the second is the
returned request or the raised `IgnoreRequest`. -/
def redirectCore (mw : BaseRedirectMiddleware) (redirected request : Request)
    (reason : RedirectReason) : Request × Except IgnoreRequest Request :=
  let md := request.meta.setdefaultRedirectTtl mw.max_redirect_times
  let request := { request with meta := md.1 }
  let ttl := md.2
  let redirects := request.meta.redirect_times.getD 0 + 1
  if ttl ≠ 0 ∧ redirects ≤ mw.max_redirect_times then
    (request, Except.ok { redirected with
      meta := { redirected.meta with
        redirect_times := some redirects,
        redirect_ttl := some (ttl - 1),
        redirect_urls := some (request.meta.redirect_urls.getD [] ++ [request.url]),
        redirect_reasons := some (request.meta.redirect_reasons.getD [] ++ [reason]) },
      dont_filter := request.dont_filter,
      priority := request.priority + mw.priority_adjust })
  else
    (request, Except.error (IgnoreRequest.mk "max redirections reached"))

/-- `BaseRedirectMiddleware._redirect_request_using_get(request, redirect_url)`:
`request.replace(url=redirect_url, method='GET', body='')` with the
`Content-Type` and `Content-Length` headers popped. -/
def redirectRequestUsingGet (request : Request) (redirect_url : String) : Request :=
  { request with
    url := redirect_url, method := "GET", body := "",
    headers := { request.headers with contentType := none, contentLength := none } }

end BaseRedirectMiddleware

/-- Result of a downloader middleware `process_response`: either a response
passed on or a request rescheduled. -/
inductive DlResult where
  | response (r : Response)
  | request (r : Request)
deriving DecidableEq, Repr

/-- `RedirectMiddleware.process_response(request, response, spider)`.
The two function arguments embed the external url helpers: `safeUrl` is
`w3lib.url.safe_url_string` and `urljoin` is `urllib.parse.urljoin`
(applied as `urljoin(request.url, location)`).  The first component of the
result is the original request after the call (it may gain the default
`redirect_ttl` inside `_redirect`). -/
def RedirectMiddleware.process_response (mw : BaseRedirectMiddleware)
    (safeUrl : String → String) (urljoin : String → String → String)
    (request : Request) (response : Response) (spider : Spider) :
    Request × Except IgnoreRequest DlResult :=
  if request.meta.dont_redirect.getD false
      ∨ response.status ∈ (spider.handle_httpstatus_list.getD [])
      ∨ response.status ∈ (request.meta.handle_httpstatus_list.getD [])
      ∨ request.meta.handle_httpstatus_all.getD false then
    (request, Except.ok (DlResult.response response))
  else if response.headers.location = none
      ∨ response.status ∉ ([301, 302, 303, 307, 308] : List Int) then
    (request, Except.ok (DlResult.response response))
  else
    let location := safeUrl (response.headers.location.getD "")
    let redirected_url := urljoin request.url location
    if response.status ∈ ([301, 307, 308] : List Int) ∨ request.method = "HEAD" then
      let redirected := { request with url := redirected_url }
      let out := mw.redirectCore redirected request (RedirectReason.status response.status)
      (out.1, out.2.map DlResult.request)
    else
      let redirected := BaseRedirectMiddleware.redirectRequestUsingGet request redirected_url
      let out := mw.redirectCore redirected request (RedirectReason.status response.status)
      (out.1, out.2.map DlResult.request)

/-! ## retry.py -/

/-- Modelled from the spec: the scrapy stats collector (`crawler.stats`),
whose source is not part of this repository — a map from counter names
to integer values, with `inc_value` the only operation used. -/
def Stats : Type := String → Int

/-- `stats.inc_value(key)`. -/
def Stats.inc (s : Stats) (key : String) : Stats :=
  fun k => if k = key then s k + 1 else s k

/-- The exception classes occurring in `RetryMiddleware.EXCEPTIONS_TO_RETRY`,
plus a constructor for every exception outside that tuple. -/
inductive PyExn where
  | deferTimeoutError
  | timeoutError
  | dnsLookupError
  | connectionRefusedError
  | connectionDone
  | connectError
  | connectionLost
  | tcpTimedOutError
  | responseFailed
  | ioError
  | tunnelError
  | other (name : String)
deriving DecidableEq, Repr

/-- `isinstance(exception, RetryMiddleware.EXCEPTIONS_TO_RETRY)`. -/
def PyExn.retryable : PyExn → Bool
  | .other _ => false
  | _ => true

/-- Modelled from the spec: `scrapy.utils.python.global_object_name` applied
to the exception class, whose source is not part of this repository — the
dotted module-and-class name of the exception, used as the stats key
suffix. -/
def PyExn.clsName : PyExn → String
  | .deferTimeoutError => "twisted.internet.defer.TimeoutError"
  | .timeoutError => "twisted.internet.error.TimeoutError"
  | .dnsLookupError => "twisted.internet.error.DNSLookupError"
  | .connectionRefusedError => "twisted.internet.error.ConnectionRefusedError"
  | .connectionDone => "twisted.internet.error.ConnectionDone"
  | .connectError => "twisted.internet.error.ConnectError"
  | .connectionLost => "twisted.internet.error.ConnectionLost"
  | .tcpTimedOutError => "twisted.internet.error.TCPTimedOutError"
  | .responseFailed => "twisted.web.client.ResponseFailed"
  | .ioError => "IOError"
  | .tunnelError => "scrapy.core.downloader.handlers.http11.TunnelError"
  | .other n => n

/-- The `reason` argument of `RetryMiddleware._retry`: either a string (the
human-readable status message from `process_response`) or an exception
instance (from `process_exception`). -/
inductive RetryReason where
  | msg (s : String)
  | exc (e : PyExn)
deriving DecidableEq, Repr

/-- The string used in the `retry/reason_count/%s` stats key: the reason
itself when it is a string, else the exception class name
(`if isinstance(reason, Exception): reason = global_object_name(...)`). -/
def RetryReason.key : RetryReason → String
  | .msg s => s
  | .exc e => e.clsName

/-- `RetryMiddleware` after `__init__`: `RETRY_TIMES` (default 2),
`RETRY_HTTP_CODES` (default [500, 502, 503, 504, 522, 524, 408, 429]) and
`RETRY_PRIORITY_ADJUST` (default -1). -/
structure RetryMiddleware where
  max_retry_times : Int := 2
  retry_http_codes : List Int := [500, 502, 503, 504, 522, 524, 408, 429]
  priority_adjust : Int := -1
deriving DecidableEq, Repr

namespace RetryMiddleware

/-- `RetryMiddleware._retry(request, reason, spider)`: the returned retry
request (or `none` when the budget is exhausted) together with the updated
stats. -/
def retryCore (mw : RetryMiddleware) (request : Request) (reason : RetryReason)
    (stats : Stats) : Option Request × Stats :=
  let retries := request.meta.retry_times.getD 0 + 1
  let retry_times :=
    match request.meta.max_retry_times with
    | some v => v
    | none => mw.max_retry_times
  if retries ≤ retry_times then
    let retryreq := { request with
      meta := { request.meta with retry_times := some retries },
      dont_filter := true,
      priority := request.priority + mw.priority_adjust }
    (some retryreq,
     (stats.inc "retry/count").inc ("retry/reason_count/" ++ reason.key))
  else
    (none, stats.inc "retry/max_reached")

/-- `RetryMiddleware.process_response(request, response, spider)`.
`statusMessage` embeds the external `scrapy.utils.response.response_status_message`. -/
def process_response (mw : RetryMiddleware) (statusMessage : Int → String)
    (request : Request) (response : Response) (stats : Stats) :
    DlResult × Stats :=
  if request.meta.dont_retry.getD false then
    (DlResult.response response, stats)
  else if response.status ∈ mw.retry_http_codes then
    let reason := RetryReason.msg (statusMessage response.status)
    match mw.retryCore request reason stats with
    | (some r, st) => (DlResult.request r, st)
    | (none, st) => (DlResult.response response, st)
  else
    (DlResult.response response, stats)

/-- `RetryMiddleware.process_exception(request, exception, spider)`:
`none` means the hook returns `None` and the exception propagates. -/
def process_exception (mw : RetryMiddleware) (request : Request) (exception : PyExn)
    (stats : Stats) : Option Request × Stats :=
  if exception.retryable ∧ ¬(request.meta.dont_retry.getD false) then
    mw.retryCore request (RetryReason.exc exception) stats
  else
    (none, stats)

end RetryMiddleware

/-! ## httperror.py -/

/-- `scrapy.spidermiddlewares.httperror.HttpError`, carrying the filtered
response and its message. -/
structure HttpError where
  response : Response
  msg : String
deriving DecidableEq, Repr

/-- An exception reaching `process_spider_exception`: an `HttpError` or
anything else. -/
inductive SpiderExn where
  | httpError (e : HttpError)
  | other (name : String)
deriving DecidableEq, Repr

/-- `HttpErrorMiddleware` after `__init__`: `HTTPERROR_ALLOW_ALL` (default
False) and `HTTPERROR_ALLOWED_CODES` (default []). -/
structure HttpErrorMiddleware where
  handle_httpstatus_all : Bool := false
  handle_httpstatus_list : List Int := []
deriving DecidableEq, Repr

namespace HttpErrorMiddleware

/-- `HttpErrorMiddleware.process_spider_input(response, spider)`:
`Except.ok ()` is the hook returning `None` (the response passes on),
`Except.error` is the raised `HttpError`. -/
def process_spider_input (mw : HttpErrorMiddleware) (response : Response)
    (spider : Spider) : Except HttpError Unit :=
  if 200 ≤ response.status ∧ response.status < 300 then
    Except.ok ()
  else
    let meta := response.meta
    if meta.handle_httpstatus_all.isSome then
      Except.ok ()
    else
      let allowed? : Option (List Int) :=
        match meta.handle_httpstatus_list with
        | some l => some l
        | none =>
          if mw.handle_httpstatus_all then none
          else some (spider.handle_httpstatus_list.getD mw.handle_httpstatus_list)
      match allowed? with
      | none => Except.ok ()
      | some allowed_statuses =>
        if response.status ∈ allowed_statuses then
          Except.ok ()
        else
          Except.error (HttpError.mk response "Ignoring non-200 response")

/-- `HttpErrorMiddleware.process_spider_exception(response, exception, spider)`:
`some []` is the hook returning the empty iterable (the exception is
swallowed, no further callbacks run); `none` is the hook returning `None`
(the exception propagates).  The updated stats are returned alongside. -/
def process_spider_exception (response : Response) (exception : SpiderExn)
    (stats : Stats) : Option (List Unit) × Stats :=
  match exception with
  | .httpError _ =>
    (some [],
     (stats.inc "httperror/response_ignored_count").inc
       ("httperror/response_ignored_status_count/" ++ toString response.status))
  | .other _ => (none, stats)

end HttpErrorMiddleware

/-- The allow-list resolution written from the words of claim C3, to be
compared with the code's `process_spider_input`: precedence
(a) `meta.handle_httpstatus_list` if present, (b) pass-through if
`meta.handle_httpstatus_all`, (c) the spider attribute if set, (d) the
configured codes; pass iff the status is in the resolved list. -/
def specC3_process_spider_input (mw : HttpErrorMiddleware) (response : Response)
    (spider : Spider) : Except HttpError Unit :=
  if 200 ≤ response.status ∧ response.status < 300 then
    Except.ok ()
  else
    let allowed? : Option (List Int) :=
      match response.meta.handle_httpstatus_list with
      | some l => some l
      | none =>
        if response.meta.handle_httpstatus_all.getD false then none
        else
          match spider.handle_httpstatus_list with
          | some l => some l
          | none => some mw.handle_httpstatus_list
    match allowed? with
    | none => Except.ok ()
    | some allowed_statuses =>
      if response.status ∈ allowed_statuses then
        Except.ok ()
      else
        Except.error (HttpError.mk response "Ignoring non-200 response")

/-! ## cookies.py -/

/-- `CookiesMiddleware._format_cookie(cookie)`: `'%s=%s' % (name, value)`,
appending `'; Path=%s'` and `'; Domain=%s'` when those entries are present
and truthy (a present empty string is falsy in Python). -/
def formatCookie (c : ReqCookie) : String :=
  let s := c.name ++ "=" ++ c.value
  let s :=
    match c.path with
    | some p => if p ≠ "" then s ++ "; Path=" ++ p else s
    | none => s
  match c.domain with
  | some d => if d ≠ "" then s ++ "; Domain=" ++ d else s
  | none => s

/-- `CookiesMiddleware` after `__init__`: `self.jars = defaultdict(CookieJar)`.
Modelled from the spec: the `CookieJar` class itself is not part of this
repository, so a jar is its list of stored cookie strings; the defaultdict
is a total map from the optional `cookiejar` meta key to a jar, every key
initially mapping to the empty jar. -/
structure CookiesMiddleware where
  jars : Option String → List String
  debug : Bool := false

/-- Pointwise update of the jars map at one key. -/
def updateJars (jars : Option String → List String) (k : Option String)
    (v : List String) : Option String → List String :=
  fun q => if q = k then v else jars q

namespace CookiesMiddleware

/-- `CookiesMiddleware.process_request(request, spider)`.  Modelled from the
spec where it calls into `CookieJar` (whose source is not part of this
repository): merging the request's own cookies
(`_get_request_cookies` + `set_cookie_if_ok`) appends their formatted
strings to the selected jar, and `add_cookie_header` (after the `Cookie`
header is popped) sets the `Cookie` header from that jar's contents, or
leaves it absent when the jar is empty.  Returns the updated middleware
state and the request as mutated in place. -/
def process_request (mw : CookiesMiddleware) (request : Request) :
    CookiesMiddleware × Request :=
  if request.meta.dont_merge_cookies.getD false then
    (mw, request)
  else
    let cookiejarkey := request.meta.cookiejar
    let jar := mw.jars cookiejarkey ++ request.cookies.map formatCookie
    ({ mw with jars := updateJars mw.jars cookiejarkey jar },
     { request with headers := { request.headers with
         cookie := if jar = [] then none else some jar } })

/-- `CookiesMiddleware.process_response(request, response, spider)`.
Modelled from the spec where it calls `jar.extract_cookies` (not part of
this repository): the response's `Set-Cookie` values are absorbed into the
jar selected by the request's `cookiejar` meta key; the response is
returned unchanged. -/
def process_response (mw : CookiesMiddleware) (request : Request)
    (response : Response) : CookiesMiddleware × Response :=
  if request.meta.dont_merge_cookies.getD false then
    (mw, response)
  else
    let cookiejarkey := request.meta.cookiejar
    let jar := mw.jars cookiejarkey ++ response.headers.setCookie
    ({ mw with jars := updateJars mw.jars cookiejarkey jar }, response)

end CookiesMiddleware

/-! ## Helper lemmas -/

instance {ε α : Type} [DecidableEq ε] [DecidableEq α] : DecidableEq (Except ε α) :=
  fun a b =>
    match a, b with
    | Except.ok x, Except.ok y =>
      if h : x = y then Decidable.isTrue (congrArg Except.ok h)
      else Decidable.isFalse (fun he => h (Except.ok.inj he))
    | Except.error x, Except.error y =>
      if h : x = y then Decidable.isTrue (congrArg Except.error h)
      else Decidable.isFalse (fun he => h (Except.error.inj he))
    | Except.ok _, Except.error _ => Decidable.isFalse (fun he => Except.noConfusion he)
    | Except.error _, Except.ok _ => Decidable.isFalse (fun he => Except.noConfusion he)

/-- Two strings differ when one is an extension of a strictly longer one. -/
lemma ne_append_of_length_lt (a b : String) (h : a.length < b.length) (s : String) :
    a ≠ b ++ s := by
  intro he
  have hl := congrArg String.length he
  rw [String.length_append] at hl
  omega

/-- Structure eta for the `redirect_ttl` field of `Meta`. -/
lemma Meta.update_ttl_self (m : Meta) (v : Int) (h : m.redirect_ttl = some v) :
    { m with redirect_ttl := some v } = m := by
  rw [← h]

/-- The request returned by a successful `_redirect` call: its meta is the
candidate's with the four redirect keys stamped, `dont_filter` and the
adjusted `priority` come from the original, everything else is the
candidate's. -/
lemma redirectCore_ok (mw : BaseRedirectMiddleware) (redirected request out : Request)
    (reason : RedirectReason)
    (h : (mw.redirectCore redirected request reason).2 = Except.ok out) :
    out = { redirected with
      meta := { redirected.meta with
        redirect_times := some (request.meta.redirect_times.getD 0 + 1),
        redirect_ttl := some (request.meta.redirect_ttl.getD mw.max_redirect_times - 1),
        redirect_urls := some (request.meta.redirect_urls.getD [] ++ [request.url]),
        redirect_reasons := some (request.meta.redirect_reasons.getD [] ++ [reason]) },
      dont_filter := request.dont_filter,
      priority := request.priority + mw.priority_adjust } := by
  unfold BaseRedirectMiddleware.redirectCore Meta.setdefaultRedirectTtl at h
  cases hm : request.meta.redirect_ttl with
  | none => rw [hm] at h; simp at h; split at h <;> simp_all
  | some v => rw [hm] at h; simp at h; split at h <;> simp_all

/-! ## Concrete objects used by witnesses and counterexamples -/

/-- A request with empty meta. -/
def wreq : Request := { url := "http://a.example/" }

/-- A redirect candidate for `wreq`. -/
def wcand : Request := { url := "http://b.example/" }

/-- A request whose meta already carries `redirect_ttl`. -/
def wreqT : Request := { url := "http://a.example/", meta := { redirect_ttl := some 5 } }

/-- The request `_redirect` returns for `wcand`/`wreq` under default settings. -/
def wout : Request :=
  { wcand with
    meta := { redirect_times := some 1, redirect_ttl := some 19,
              redirect_urls := some ["http://a.example/"],
              redirect_reasons := some [RedirectReason.status 301] },
    dont_filter := false,
    priority := 2 }

/-! ## Claim theorems -/

/-- C1: `_redirect(redirected, request, spider, reason)` with
`ttl = request.meta['redirect_ttl']` if present else the configured
`max_redirect_times`, and `redirects = request.meta.get('redirect_times', 0) + 1`:
if `ttl` is nonzero and `redirects ≤ max_redirect_times`, the candidate is
returned with `redirect_times = redirects`, `redirect_ttl = ttl - 1`, the
original url appended to `redirect_urls`, the reason appended to
`redirect_reasons`, `dont_filter` copied from the original and
`priority = original priority + priority_adjust`; otherwise no request is
returned and `IgnoreRequest("max redirections reached")` is raised. -/
theorem C1_redirect_core_budget (mw : BaseRedirectMiddleware)
    (redirected request : Request) (reason : RedirectReason) :
    (mw.redirectCore redirected request reason).2 =
      if request.meta.redirect_ttl.getD mw.max_redirect_times ≠ 0 ∧
          request.meta.redirect_times.getD 0 + 1 ≤ mw.max_redirect_times then
        Except.ok { redirected with
          meta := { redirected.meta with
            redirect_times := some (request.meta.redirect_times.getD 0 + 1),
            redirect_ttl := some (request.meta.redirect_ttl.getD mw.max_redirect_times - 1),
            redirect_urls := some (request.meta.redirect_urls.getD [] ++ [request.url]),
            redirect_reasons := some (request.meta.redirect_reasons.getD [] ++ [reason]) },
          dont_filter := request.dont_filter,
          priority := request.priority + mw.priority_adjust }
      else
        Except.error (IgnoreRequest.mk "max redirections reached") := by
  unfold BaseRedirectMiddleware.redirectCore Meta.setdefaultRedirectTtl
  cases hm : request.meta.redirect_ttl <;> simp [hm] <;> split <;> rfl

/-- C7 counterexample: on a request whose meta lacks `redirect_ttl`,
`_redirect` does not leave the original request's meta unchanged — the
`setdefault` call inserts the key in place. -/
theorem C7_counterexample_redirect_mutates_original :
    ((({} : BaseRedirectMiddleware).redirectCore wcand wreq
        (RedirectReason.status 301)).1).meta ≠ wreq.meta := by
  decide

/-- C7 (amended): `_redirect` mutates the original request's meta only by
inserting the default `redirect_ttl` (the configured `max_redirect_times`)
when that key is absent; when `redirect_ttl` is already present the
original request is left fully unchanged, and all other redirect stamping
happens on the candidate clone. -/
theorem C7_redirect_original_mutation_only_ttl (mw : BaseRedirectMiddleware)
    (redirected request : Request) (reason : RedirectReason) :
    (mw.redirectCore redirected request reason).1 =
      { request with meta := { request.meta with
          redirect_ttl := some (request.meta.redirect_ttl.getD mw.max_redirect_times) } } ∧
    (request.meta.redirect_ttl.isSome →
      (mw.redirectCore redirected request reason).1 = request) := by
  have h1 : (mw.redirectCore redirected request reason).1 =
      { request with meta := { request.meta with
          redirect_ttl := some (request.meta.redirect_ttl.getD mw.max_redirect_times) } } := by
    unfold BaseRedirectMiddleware.redirectCore Meta.setdefaultRedirectTtl
    cases hm : request.meta.redirect_ttl with
    | none => simp [hm]; split <;> rfl
    | some v =>
      simp [hm, Meta.update_ttl_self request.meta v hm]
      split <;> simp [Meta.update_ttl_self request.meta v hm]
  refine ⟨h1, fun hs => ?_⟩
  obtain ⟨v, hv⟩ := Option.isSome_iff_exists.mp hs
  rw [h1, hv]
  simp [Meta.update_ttl_self request.meta v hv]

/-- Witness for C7 (amended): with `redirect_ttl` present, the original
request comes back untouched. -/
theorem C7_redirect_original_mutation_only_ttl_witness :
    (wreqT.meta.redirect_ttl).isSome ∧
    (({} : BaseRedirectMiddleware).redirectCore wcand wreqT
        (RedirectReason.status 301)).1 = wreqT :=
  ⟨by decide,
   (C7_redirect_original_mutation_only_ttl {} wcand wreqT
      (RedirectReason.status 301)).2 (by decide)⟩

/-- The requests reachable from `r0` by repeatedly feeding the request
returned by `_redirect` back in (with an arbitrary candidate at each
step): a redirect chain. -/
inductive RedirectChain (mw : BaseRedirectMiddleware) (r0 : Request) : Request → Prop
  | refl : RedirectChain mw r0 r0
  | step (r cand out : Request) (reason : RedirectReason) :
      RedirectChain mw r0 r →
      (mw.redirectCore cand r reason).2 = Except.ok out →
      RedirectChain mw r0 out

/-- Along a chain started with neither `redirect_ttl` nor `redirect_times`,
the quantity `redirect_times + redirect_ttl` (absent keys defaulted to 0
and `max_redirect_times` respectively) is preserved at the configured
maximum. -/
lemma chain_budget_sum (mw : BaseRedirectMiddleware) (r0 r : Request)
    (h0t : r0.meta.redirect_ttl = none) (h0n : r0.meta.redirect_times = none)
    (hc : RedirectChain mw r0 r) :
    r.meta.redirect_times.getD 0 + r.meta.redirect_ttl.getD mw.max_redirect_times
      = mw.max_redirect_times := by
  induction hc with
  | refl => rw [h0t, h0n]; simp
  | step r cand out reason hch hok ih =>
    have h := redirectCore_ok mw cand r out reason hok
    subst h
    simp only [Option.getD_some]
    omega

/-- C10: in a redirect chain whose initial request has neither
`redirect_ttl` nor `redirect_times` in its meta, every request returned by
`_redirect` carries both keys and they satisfy
`redirect_times + redirect_ttl = max_redirect_times`. -/
theorem C10_redirect_budget_complement (mw : BaseRedirectMiddleware) (r0 r : Request)
    (h0t : r0.meta.redirect_ttl = none) (h0n : r0.meta.redirect_times = none)
    (hc : RedirectChain mw r0 r) (cand : Request) (reason : RedirectReason)
    (out : Request) (hok : (mw.redirectCore cand r reason).2 = Except.ok out) :
    ∃ t u, out.meta.redirect_times = some t ∧ out.meta.redirect_ttl = some u ∧
      t + u = mw.max_redirect_times := by
  have hsum := chain_budget_sum mw r0 r h0t h0n hc
  have h := redirectCore_ok mw cand r out reason hok
  subst h
  refine ⟨_, _, rfl, rfl, ?_⟩
  omega

/-- Witness for C10: the first hop of a concrete chain under default
settings lands on `redirect_times = 1`, `redirect_ttl = 19`, summing to 20. -/
theorem C10_redirect_budget_complement_witness :
    ∃ t u, wout.meta.redirect_times = some t ∧ wout.meta.redirect_ttl = some u ∧
      t + u = ({} : BaseRedirectMiddleware).max_redirect_times :=
  C10_redirect_budget_complement {} wreq wreq rfl rfl RedirectChain.refl wcand
    (RedirectReason.status 301) wout (by decide)

/-- The all-zero stats collector. -/
def statsZero : Stats := fun _ => 0

/-- `_retry` written with `Option.getD` in place of the source's
`if 'max_retry_times' in request.meta` lookup. -/
lemma retryCore_getD (mw : RetryMiddleware) (request : Request) (reason : RetryReason)
    (stats : Stats) :
    mw.retryCore request reason stats =
      if request.meta.retry_times.getD 0 + 1
          ≤ request.meta.max_retry_times.getD mw.max_retry_times then
        (some { request with
            meta := { request.meta with
              retry_times := some (request.meta.retry_times.getD 0 + 1) },
            dont_filter := true,
            priority := request.priority + mw.priority_adjust },
         (stats.inc "retry/count").inc ("retry/reason_count/" ++ reason.key))
      else
        (none, stats.inc "retry/max_reached") := by
  unfold RetryMiddleware.retryCore
  cases request.meta.max_retry_times <;> rfl

/-- C2: `_retry(request, reason, spider)` with
`retries = request.meta.get('retry_times', 0) + 1` and budget
`request.meta['max_retry_times']` if present else the configured
`RETRY_TIMES`: if `retries ≤ budget` a copy of the request is returned with
`retry_times = retries`, `dont_filter = true` and
`priority = original + priority_adjust`, and the `retry/count` and
`retry/reason_count/<reason>` counters are incremented; if
`retries > budget` nothing is returned and `retry/max_reached` is
incremented — so a request already retried exactly `budget` times is never
retried again. -/
theorem C2_retry_budget (mw : RetryMiddleware) (request : Request) (reason : RetryReason)
    (stats : Stats) :
    (request.meta.retry_times.getD 0 + 1
        ≤ request.meta.max_retry_times.getD mw.max_retry_times →
      (mw.retryCore request reason stats).1 = some { request with
          meta := { request.meta with
            retry_times := some (request.meta.retry_times.getD 0 + 1) },
          dont_filter := true,
          priority := request.priority + mw.priority_adjust } ∧
      (mw.retryCore request reason stats).2 "retry/count" = stats "retry/count" + 1 ∧
      (mw.retryCore request reason stats).2 ("retry/reason_count/" ++ reason.key)
        = stats ("retry/reason_count/" ++ reason.key) + 1) ∧
    (request.meta.max_retry_times.getD mw.max_retry_times
        < request.meta.retry_times.getD 0 + 1 →
      (mw.retryCore request reason stats).1 = none ∧
      (mw.retryCore request reason stats).2 "retry/max_reached"
        = stats "retry/max_reached" + 1) ∧
    (request.meta.retry_times
        = some (request.meta.max_retry_times.getD mw.max_retry_times) →
      (mw.retryCore request reason stats).1 = none) := by
  have hne : "retry/count" ≠ "retry/reason_count/" ++ reason.key :=
    ne_append_of_length_lt _ _ (by decide) _
  refine ⟨fun h => ?_, fun h => ?_, fun h => ?_⟩
  · rw [retryCore_getD, if_pos h]
    refine ⟨rfl, ?_, ?_⟩
    · simp [Stats.inc, hne]
    · simp [Stats.inc, (Ne.symm hne : _)]
  · rw [retryCore_getD, if_neg (by omega)]
    exact ⟨rfl, by simp [Stats.inc]⟩
  · rw [retryCore_getD, if_neg (by rw [h]; simp)]

/-- Witness for C2: a fresh request under default settings is within budget
and comes back stamped with `retry_times = 1`, `dont_filter = true` and
priority adjusted by -1. -/
theorem C2_retry_budget_witness :
    wreq.meta.retry_times.getD 0 + 1
      ≤ wreq.meta.max_retry_times.getD ({} : RetryMiddleware).max_retry_times ∧
    (({} : RetryMiddleware).retryCore wreq
        (RetryReason.msg "503 Service Unavailable") statsZero).1
      = some { wreq with
          meta := { wreq.meta with
            retry_times := some (wreq.meta.retry_times.getD 0 + 1) },
          dont_filter := true,
          priority := wreq.priority + ({} : RetryMiddleware).priority_adjust } :=
  ⟨by decide,
   ((C2_retry_budget {} wreq (RetryReason.msg "503 Service Unavailable") statsZero).1
      (by decide)).1⟩

/-- C5: the retry middleware never silently swallows a result:
`process_response` passes the response through unchanged when `dont_retry`
is set or the status is not retried, still hands back the original
response when the budget is exhausted, and `process_exception` returns a
request exactly when the exception is in the transient set, `dont_retry`
is unset and the budget is not exhausted — in every other case it returns
nothing so the exception propagates. -/
theorem C5_retry_never_swallows (mw : RetryMiddleware) (sm : Int → String)
    (request : Request) (response : Response) (exception : PyExn) (stats : Stats) :
    (request.meta.dont_retry.getD false = true →
      RetryMiddleware.process_response mw sm request response stats
        = (DlResult.response response, stats)) ∧
    (response.status ∉ mw.retry_http_codes →
      RetryMiddleware.process_response mw sm request response stats
        = (DlResult.response response, stats)) ∧
    (request.meta.max_retry_times.getD mw.max_retry_times
        < request.meta.retry_times.getD 0 + 1 →
      (RetryMiddleware.process_response mw sm request response stats).1
        = DlResult.response response) ∧
    ((RetryMiddleware.process_exception mw request exception stats).1.isSome ↔
      (exception.retryable = true ∧ request.meta.dont_retry.getD false = false ∧
       request.meta.retry_times.getD 0 + 1
         ≤ request.meta.max_retry_times.getD mw.max_retry_times)) := by
  refine ⟨fun h => ?_, fun h => ?_, fun h => ?_, ?_⟩
  · simp [RetryMiddleware.process_response, h]
  · by_cases hd : request.meta.dont_retry.getD false <;>
      simp [RetryMiddleware.process_response, hd, h]
  · by_cases hd : request.meta.dont_retry.getD false
    · simp [RetryMiddleware.process_response, hd]
    · by_cases hs : response.status ∈ mw.retry_http_codes
      · simp [RetryMiddleware.process_response, hd, hs, retryCore_getD,
          if_neg (by omega : ¬(request.meta.retry_times.getD 0 + 1
            ≤ request.meta.max_retry_times.getD mw.max_retry_times))]
      · simp [RetryMiddleware.process_response, hd, hs]
  · by_cases hr : exception.retryable
    · by_cases hd : request.meta.dont_retry.getD false
      · simp [RetryMiddleware.process_exception, hr, hd]
      · by_cases hb : request.meta.retry_times.getD 0 + 1
            ≤ request.meta.max_retry_times.getD mw.max_retry_times <;>
          simp [RetryMiddleware.process_exception, hr, hd, hb, retryCore_getD]
    · simp [RetryMiddleware.process_exception, hr]

/-- Witness for C5: a request already at the default budget (2 retries) is
abandoned — a 503 response comes back unchanged, and a transient exception
is not retried. -/
theorem C5_retry_never_swallows_witness :
    ({ url := "http://a.example/",
       meta := { retry_times := some 2 } } : Request).meta.max_retry_times.getD
        ({} : RetryMiddleware).max_retry_times
      < ({ url := "http://a.example/",
           meta := { retry_times := some 2 } } : Request).meta.retry_times.getD 0 + 1 ∧
    (RetryMiddleware.process_response {} (fun _ => "503 Service Unavailable")
        { url := "http://a.example/", meta := { retry_times := some 2 } }
        { status := 503 } statsZero).1
      = DlResult.response { status := 503 } :=
  ⟨by decide,
   (C5_retry_never_swallows {} (fun _ => "503 Service Unavailable")
      { url := "http://a.example/", meta := { retry_times := some 2 } }
      { status := 503 } PyExn.timeoutError statsZero).2.2.1 (by decide)⟩

/-- A 500 response whose meta carries both `handle_httpstatus_all` and an
empty `handle_httpstatus_list`. -/
def resp500Both : Response :=
  { status := 500,
    meta := { handle_httpstatus_all := some true,
              handle_httpstatus_list := some [] } }

/-- A 500 response whose meta carries `handle_httpstatus_all = False` next
to an empty `handle_httpstatus_list`. -/
def resp500AllFalse : Response :=
  { status := 500,
    meta := { handle_httpstatus_all := some false,
              handle_httpstatus_list := some [] } }

/-- C3 counterexample: on a 500 response whose meta holds both
`handle_httpstatus_all` and `handle_httpstatus_list = []`, the code passes
the response (the `handle_httpstatus_all` presence check runs first) while
the claim's precedence — the meta allow-list first — would raise
`HttpError`. -/
theorem C3_counterexample_meta_all_first :
    HttpErrorMiddleware.process_spider_input {} resp500Both {} = Except.ok () ∧
    specC3_process_spider_input {} resp500Both {}
      = Except.error (HttpError.mk resp500Both "Ignoring non-200 response") ∧
    HttpErrorMiddleware.process_spider_input {} resp500Both {}
      ≠ specC3_process_spider_input {} resp500Both {} := by
  decide

/-- C3 (amended): for a response with status outside [200, 300),
`process_spider_input` passes iff, in this precedence order, the
`handle_httpstatus_all` meta key is present (any value), or the
`handle_httpstatus_list` meta key is present and contains the status, or —
with that meta key absent — the configured `HTTPERROR_ALLOW_ALL` is set or
the status is in the spider's `handle_httpstatus_list` attribute (falling
back to the configured `HTTPERROR_ALLOWED_CODES`); a response with status
in [200, 300) always passes, and a response that does not pass raises
`HttpError` carrying the response. -/
theorem C3_httperror_allowlist_precedence (mw : HttpErrorMiddleware)
    (response : Response) (spider : Spider) :
    (HttpErrorMiddleware.process_spider_input mw response spider = Except.ok () ↔
      ((200 ≤ response.status ∧ response.status < 300) ∨
       response.meta.handle_httpstatus_all.isSome = true ∨
       (response.meta.handle_httpstatus_list.isSome = true ∧
         response.status ∈ response.meta.handle_httpstatus_list.getD []) ∨
       (response.meta.handle_httpstatus_list = none ∧
         (mw.handle_httpstatus_all = true ∨
          response.status ∈ spider.handle_httpstatus_list.getD mw.handle_httpstatus_list)))) ∧
    (HttpErrorMiddleware.process_spider_input mw response spider = Except.ok () ∨
     HttpErrorMiddleware.process_spider_input mw response spider
       = Except.error (HttpError.mk response "Ignoring non-200 response")) := by
  unfold HttpErrorMiddleware.process_spider_input
  by_cases h2 : 200 ≤ response.status ∧ response.status < 300
  · simp [h2]
  · by_cases ha : response.meta.handle_httpstatus_all.isSome
    · simp [h2, ha]
    · cases hl : response.meta.handle_httpstatus_list with
      | some l => by_cases hs : response.status ∈ l <;> simp_all
      | none =>
        by_cases hall : mw.handle_httpstatus_all
        · simp_all
        · by_cases hsp : response.status
              ∈ spider.handle_httpstatus_list.getD mw.handle_httpstatus_list <;>
            simp_all

/-- C9: whenever the `handle_httpstatus_all` key is present in the
response's meta — whatever its value, `False` included — a non-2xx
response passes `process_spider_input` without an `HttpError`, before the
`handle_httpstatus_list` meta key is even consulted. -/
theorem C9_handle_httpstatus_all_presence (mw : HttpErrorMiddleware)
    (response : Response) (spider : Spider)
    (hs : ¬(200 ≤ response.status ∧ response.status < 300))
    (hp : response.meta.handle_httpstatus_all.isSome = true) :
    HttpErrorMiddleware.process_spider_input mw response spider = Except.ok () := by
  unfold HttpErrorMiddleware.process_spider_input
  simp [hs, hp]

/-- Witness for C9: a 500 response carrying `handle_httpstatus_all = False`
and an empty `handle_httpstatus_list` still passes. -/
theorem C9_handle_httpstatus_all_presence_witness :
    ¬(200 ≤ resp500AllFalse.status ∧ resp500AllFalse.status < 300) ∧
    resp500AllFalse.meta.handle_httpstatus_all.isSome = true ∧
    HttpErrorMiddleware.process_spider_input {} resp500AllFalse {} = Except.ok () :=
  ⟨by decide, by decide,
   C9_handle_httpstatus_all_presence {} resp500AllFalse {} (by decide) (by decide)⟩

/-- C6: `process_spider_exception` on an `HttpError` increments the
`httperror/response_ignored_count` counter and the per-status
`httperror/response_ignored_status_count/<status>` counter exactly once
each and returns the empty iterable (swallowing the exception); on any
other exception it returns nothing and leaves the stats alone. -/
theorem C6_httperror_exception_counts (response : Response) (e : HttpError)
    (name : String) (stats : Stats) :
    (HttpErrorMiddleware.process_spider_exception response (SpiderExn.httpError e) stats).1
      = some [] ∧
    (HttpErrorMiddleware.process_spider_exception response (SpiderExn.httpError e) stats).2
        "httperror/response_ignored_count"
      = stats "httperror/response_ignored_count" + 1 ∧
    (HttpErrorMiddleware.process_spider_exception response (SpiderExn.httpError e) stats).2
        ("httperror/response_ignored_status_count/" ++ toString response.status)
      = stats ("httperror/response_ignored_status_count/" ++ toString response.status) + 1 ∧
    HttpErrorMiddleware.process_spider_exception response (SpiderExn.other name) stats
      = (none, stats) := by
  have hne : "httperror/response_ignored_count"
      ≠ "httperror/response_ignored_status_count/" ++ toString response.status :=
    ne_append_of_length_lt _ _ (by decide) _
  refine ⟨rfl, ?_, ?_, rfl⟩
  · simp [HttpErrorMiddleware.process_spider_exception, Stats.inc, hne]
  · simp [HttpErrorMiddleware.process_spider_exception, Stats.inc, (Ne.symm hne : _)]

/-- Identity embedding of `safe_url_string` for concrete runs. -/
def wSafe : String → String := fun s => s

/-- Embedding of `urljoin` for concrete runs: the location is already
absolute, so the join returns it. -/
def wJoin : String → String → String := fun _ l => l

/-- A POST request with body, entity headers and priority 5. -/
def reqPost : Request :=
  { url := "http://orig.example/", method := "POST", body := "payload",
    priority := 5,
    headers := { contentType := some "text/plain", contentLength := some "7" } }

/-- A 302 response pointing at `http://t.example/`. -/
def resp302 : Response :=
  { status := 302, headers := { location := some "http://t.example/" } }

/-- The redirected request `process_response` builds for `reqPost`/`resp302`
under default settings. -/
def rOut302 : Request :=
  { url := "http://t.example/", method := "GET", body := "",
    headers := { contentType := none, contentLength := none },
    meta := { redirect_times := some 1, redirect_ttl := some 19,
              redirect_urls := some ["http://orig.example/"],
              redirect_reasons := some [RedirectReason.status 302] },
    dont_filter := false, priority := 7 }

/-- C4: for every redirect `process_response` actually performs (it returns
a request): on 301/307/308 or an original HEAD method the redirected
request keeps the original method and body and its url is the `Location`
value resolved against the original url; otherwise (302/303, non-HEAD) it
is a GET with empty body and the `Content-Type` and `Content-Length`
headers removed. -/
theorem C4_redirect_method_rules (mw : BaseRedirectMiddleware)
    (safeUrl : String → String) (urljoin : String → String → String)
    (request : Request) (response : Response) (spider : Spider)
    (loc : String) (r : Request)
    (hloc : response.headers.location = some loc)
    (hr : (RedirectMiddleware.process_response mw safeUrl urljoin request response spider).2
        = Except.ok (DlResult.request r)) :
    ((response.status ∈ ([301, 307, 308] : List Int) ∨ request.method = "HEAD") →
      r.method = request.method ∧ r.body = request.body ∧
      r.url = urljoin request.url (safeUrl loc)) ∧
    (¬(response.status ∈ ([301, 307, 308] : List Int) ∨ request.method = "HEAD") →
      r.method = "GET" ∧ r.body = "" ∧ r.headers.contentType = none ∧
      r.headers.contentLength = none ∧
      r.url = urljoin request.url (safeUrl loc)) := by
  unfold RedirectMiddleware.process_response at hr
  by_cases hG : (request.meta.dont_redirect.getD false
      ∨ response.status ∈ spider.handle_httpstatus_list.getD []
      ∨ response.status ∈ request.meta.handle_httpstatus_list.getD []
      ∨ request.meta.handle_httpstatus_all.getD false)
  · rw [if_pos hG] at hr
    simp at hr
  · rw [if_neg hG] at hr
    by_cases h5 : (response.headers.location = none
        ∨ response.status ∉ ([301, 302, 303, 307, 308] : List Int))
    · rw [if_pos h5] at hr
      simp at hr
    · rw [if_neg h5] at hr
      by_cases hB : (response.status ∈ ([301, 307, 308] : List Int)
          ∨ request.method = "HEAD")
      · rw [if_pos hB] at hr
        simp only [Except.map] at hr
        rcases hc : (mw.redirectCore
            { request with url := urljoin request.url (safeUrl (response.headers.location.getD "")) }
            request (RedirectReason.status response.status)).2 with e | out
        · rw [hc] at hr; simp [Except.map] at hr
        · rw [hc] at hr
          simp [Except.map] at hr
          have hout := redirectCore_ok mw _ request out
            (RedirectReason.status response.status) hc
          refine ⟨fun _ => ?_, fun hB2 => absurd hB hB2⟩
          rw [← hr, hout, hloc]
          exact ⟨rfl, rfl, rfl⟩
      · rw [if_neg hB] at hr
        simp only [Except.map] at hr
        rcases hc : (mw.redirectCore
            (BaseRedirectMiddleware.redirectRequestUsingGet request
              (urljoin request.url (safeUrl (response.headers.location.getD ""))))
            request (RedirectReason.status response.status)).2 with e | out
        · rw [hc] at hr; simp [Except.map] at hr
        · rw [hc] at hr
          simp [Except.map] at hr
          have hout := redirectCore_ok mw _ request out
            (RedirectReason.status response.status) hc
          refine ⟨fun hB2 => absurd hB2 hB, fun _ => ?_⟩
          rw [← hr, hout, hloc]
          exact ⟨rfl, rfl, rfl, rfl, rfl⟩

/-- Witness for C4: scenario 2 of the spec — a POST with priority 5 hitting
a 302 is rebuilt as a GET with empty body, stripped entity headers and
priority 7. -/
theorem C4_redirect_method_rules_witness :
    resp302.headers.location = some "http://t.example/" ∧
    (RedirectMiddleware.process_response {} wSafe wJoin reqPost resp302 {}).2
      = Except.ok (DlResult.request rOut302) ∧
    ¬(resp302.status ∈ ([301, 307, 308] : List Int) ∨ reqPost.method = "HEAD") ∧
    (rOut302.method = "GET" ∧ rOut302.body = "" ∧
     rOut302.headers.contentType = none ∧ rOut302.headers.contentLength = none ∧
     rOut302.url = wJoin reqPost.url (wSafe "http://t.example/")) :=
  ⟨rfl, by decide, by decide,
   (C4_redirect_method_rules {} wSafe wJoin reqPost resp302 {} "http://t.example/"
      rOut302 rfl (by decide)).2 (by decide)⟩

/-- The cookies middleware over empty jars. -/
def mwC : CookiesMiddleware := { jars := fun _ => [] }

/-- A request bound to cookie jar "A". -/
def reqAC : Request := { url := "http://a.example/", meta := { cookiejar := some "A" } }

/-- A request bound to cookie jar "B", carrying one cookie of its own. -/
def reqBC : Request :=
  { url := "http://b.example/", meta := { cookiejar := some "B" },
    cookies := [{ name := "n", value := "v" }] }

/-- A response that sets a cookie, absorbed into jar "A". -/
def respAC : Response := { status := 200, headers := { setCookie := ["sid=42"] } }

/-- C8: cookie jars are isolated per `cookiejar` meta key — processing a
request or response selects only the jar under its own key and leaves
every other jar untouched, and a cookie absorbed into jar A via
`process_response` never appears in the `Cookie` header that
`process_request` sets on a request using a different key B, unless it was
already in jar B or among that request's own cookies. -/
theorem C8_cookiejar_isolation (mw : CookiesMiddleware) (reqA reqB : Request)
    (respA : Response) (c : String) (l : List String) :
    (∀ q, q ≠ reqA.meta.cookiejar →
      ((mw.process_request reqA).1).jars q = mw.jars q) ∧
    (∀ q, q ≠ reqA.meta.cookiejar →
      ((mw.process_response reqA respA).1).jars q = mw.jars q) ∧
    (reqB.meta.cookiejar ≠ reqA.meta.cookiejar →
     c ∉ mw.jars reqB.meta.cookiejar →
     c ∉ reqB.cookies.map formatCookie →
     reqB.meta.dont_merge_cookies.getD false = false →
     (((mw.process_response reqA respA).1).process_request reqB).2.headers.cookie
       = some l →
     c ∉ l) := by
  have h1 : ∀ q, q ≠ reqA.meta.cookiejar →
      ((mw.process_request reqA).1).jars q = mw.jars q := by
    intro q hq
    unfold CookiesMiddleware.process_request
    by_cases hd : reqA.meta.dont_merge_cookies.getD false <;>
      simp [hd, updateJars, hq]
  have h2 : ∀ q, q ≠ reqA.meta.cookiejar →
      ((mw.process_response reqA respA).1).jars q = mw.jars q := by
    intro q hq
    unfold CookiesMiddleware.process_response
    by_cases hd : reqA.meta.dont_merge_cookies.getD false <;>
      simp [hd, updateJars, hq]
  refine ⟨h1, h2, fun hk hjar hreq hdm hdr => ?_⟩
  have hB := h2 reqB.meta.cookiejar hk
  unfold CookiesMiddleware.process_request at hdr
  rw [hdm] at hdr
  simp only [Bool.false_eq_true, if_false] at hdr
  split at hdr
  · exact absurd hdr (by simp)
  · simp only [Option.some.injEq] at hdr
    rw [← hdr, hB]
    simp only [List.mem_append]
    rintro (h | h)
    · exact hjar h
    · exact hreq h

/-- Witness for C8: the `sid=42` cookie absorbed into jar "A" is absent
from the `Cookie` header set on the jar-"B" request. -/
theorem C8_cookiejar_isolation_witness :
    reqBC.meta.cookiejar ≠ reqAC.meta.cookiejar ∧
    "sid=42" ∉ mwC.jars reqBC.meta.cookiejar ∧
    "sid=42" ∉ reqBC.cookies.map formatCookie ∧
    reqBC.meta.dont_merge_cookies.getD false = false ∧
    (((mwC.process_response reqAC respAC).1).process_request reqBC).2.headers.cookie
      = some ["n=v"] ∧
    "sid=42" ∉ (["n=v"] : List String) :=
  ⟨by decide, by decide, by decide, by decide, by decide,
   (C8_cookiejar_isolation mwC reqAC reqBC respAC "sid=42" ["n=v"]).2.2
     (by decide) (by decide) (by decide) (by decide) (by decide)⟩

end Scrapy
